import Mathlib

/-!
# Verification of the bulk PPTX→PDF converter

Shallow embedding of `src/convert_pptx_to_pdf.py` (class `PPTXtoPDFConverter`
and function `main`).  The filesystem, the external LibreOffice process and
the PowerPoint COM bridge are abstracted into an `Env` record of oracle
functions; every code path of the Python source is translated branch by
branch.  Floating-point file sizes appear in the source only inside log
strings (`size/(1024*1024)` formatted for display), so log messages carry the
underlying names and integers instead.
-/

/-- Outcome of `subprocess.run(cmd, capture_output=True, text=True, timeout=600)`:
the process completed with a return code and captured stderr, the
`subprocess.TimeoutExpired` exception was raised, or some other exception was
raised (the `except Exception` arm of `convert_file`). -/
inductive RunOutcome where
  | completed (returncode : Int) (stderr : String)
  | timedOut
  | raised
deriving DecidableEq, Repr

/-- Outcome of the probe `subprocess.run([cmd, '--version'], ..., timeout=5)`
in `_find_libreoffice`: an exit code, or `FileNotFoundError` /
`subprocess.TimeoutExpired` (both continue the loop). -/
inductive ProbeOutcome where
  | exitCode (returncode : Int)
  | notFoundOrTimeout
deriving DecidableEq, Repr

/-- One recorded `subprocess.run` conversion invocation: the argv list and the
timeout (in seconds) it was bounded by. -/
structure BackendCall where
  cmd : List String
  timeoutSecs : Nat
deriving DecidableEq, Repr

/-- Log lines printed by the converter, abstracted to constructors carrying
the dynamic data (file-size figures are display-only and omitted). -/
inductive Msg where
  | errNoLibreOffice
  | errNotFound (file : String)
  | warnSkip (file : String)
  | converting (name : String)
  | qualityNote (presetName : String) (dpi : Nat)
  | cliNote
  | successMsg (pdfName : String)
  | failNoPdf (name : String)
  | failMsg (name : String)
  | stderrNote (s : String)
  | timeoutMsg (name : String)
  | errorConverting (name : String)
  | noFiles
  | foundFiles (n : Nat)
  | progress (i n : Nat)
  | summaryMsg (total success failed : Nat)
deriving DecidableEq, Repr

/-- Abstract environment: filesystem oracles and behaviour of the external
processes.  `dirFiles` lists the paths produced by recursively globbing a
directory (`Path.rglob`), in traversal order; `outExistsAfter` and
`outSizeAfter` describe the filesystem state when the backend has run. -/
structure Env where
  isFile : String → Bool
  isDir : String → Bool
  pathExists : String → Bool
  dirFiles : String → List String
  fileSize : String → Nat
  runBackend : List String → Nat → RunOutcome
  outExistsAfter : String → Bool
  outSizeAfter : String → Nat
  cmdProbe : String → ProbeOutcome
  ppCheckOk : Bool
  ppInitOk : Bool
  ppConvert : String → String → Option String → Bool

/-- An environment in which nothing exists and every probe fails; concrete
test environments override the relevant fields. -/
def emptyEnv : Env where
  isFile := fun _ => false
  isDir := fun _ => false
  pathExists := fun _ => false
  dirFiles := fun _ => []
  fileSize := fun _ => 0
  runBackend := fun _ _ => RunOutcome.raised
  outExistsAfter := fun _ => false
  outSizeAfter := fun _ => 0
  cmdProbe := fun _ => ProbeOutcome.notFoundOrTimeout
  ppCheckOk := false
  ppInitOk := false
  ppConvert := fun _ _ _ => false

/-! ## Path and string helpers (pathlib / `str` semantics used by the
source), implemented over `List Char` -/

/-- Split a character list at every occurrence of `sep` (the semantics of
`str.split(sep)`); the result is always nonempty. -/
def splitChar (sep : Char) : List Char → List (List Char)
  | [] => [[]]
  | c :: cs =>
    let r := splitChar sep cs
    if c = sep then [] :: r
    else
      match r with
      | [] => [[c]]
      | h :: t => (c :: h) :: t

/-- Join character lists with a separator character. -/
def joinWith (sep : Char) : List (List Char) → List Char
  | [] => []
  | [x] => x
  | x :: xs => x ++ sep :: joinWith sep xs

/-- `str.lower()` on the ASCII range (the recognized extensions are ASCII). -/
def lowerStr (s : String) : String :=
  String.mk (s.data.map Char.toLower)

/-- `str.endswith(suffix)` / the name part of a `*.<ext>` glob match. -/
def strEndsWith (s suffix : String) : Bool :=
  suffix.data.isSuffixOf s.data

/-- `Path(p).name`: the final path component. -/
def nameOf (p : String) : String :=
  String.mk ((splitChar '/' p.data).getLastD [])

/-- `Path(p).suffix`: the extension of the final component, including the
dot; empty unless the last dot sits strictly inside the name (pathlib: the
last `.` at index `i` with `0 < i < len(name) - 1`). -/
def suffixOf (p : String) : String :=
  let parts := splitChar '.' (nameOf p).data
  match parts with
  | [] => ""
  | [_] => ""
  | _ =>
    let last := parts.getLastD []
    if last = [] then ""
    else if parts.length = 2 && parts.headD [] = [] then ""
    else String.mk ('.' :: last)

/-- `Path(p).stem`: the final component without its suffix. -/
def stemOf (p : String) : String :=
  let name := (nameOf p).data
  String.mk (name.take (name.length - (suffixOf p).data.length))

/-- `Path(p).parent` for a relative path: everything before the final
component, `"."` when there is no directory part. -/
def parentOf (p : String) : String :=
  let parts := splitChar '/' p.data
  match parts with
  | [] => "."
  | [_] => "."
  | _ => String.mk (joinWith '/' parts.dropLast)

/-- `Path(dir) / name`: pathlib drops a `"."` directory part. -/
def joinPath (dir name : String) : String :=
  if dir = "." then name else dir ++ "/" ++ name

/-! ## Quality presets (`PPTXtoPDFConverter.QUALITY_PRESETS`) -/

structure QualityPreset where
  name : String
  dpi : Nat
  jpeg_quality : Nat
  description : String
deriving DecidableEq, Repr

def QUALITY_PRESETS : List (String × QualityPreset) :=
  [ ("screen",
     { name := "Screen/Web (like PowerPoint)", dpi := 96, jpeg_quality := 80,
       description := "Smallest files, optimized for viewing on screen" }),
    ("standard",
     { name := "Standard (Balanced)", dpi := 150, jpeg_quality := 85,
       description := "Good balance between quality and file size" }),
    ("high",
     { name := "High Quality (Print)", dpi := 300, jpeg_quality := 90,
       description := "High quality for professional printing" }),
    ("maximum",
     { name := "Maximum Quality (Archive)", dpi := 600, jpeg_quality := 95,
       description := "Highest quality, largest files" }) ]

/-- `self.QUALITY_PRESETS[q]` as a lookup. -/
def presetLookup (q : String) : Option QualityPreset :=
  (QUALITY_PRESETS.find? (fun e => e.1 = q)).map Prod.snd

/-- `q in QUALITY_PRESETS` membership test used by `__init__`. -/
def isPresetKey (q : String) : Bool :=
  (QUALITY_PRESETS.map Prod.fst).contains q

/-- The recognized presentation extensions `['.pptx', '.ppt']`. -/
def recognizedExts : List String := [".pptx", ".ppt"]

/-! ## Backend resolver (`PPTXtoPDFConverter._find_libreoffice`) -/

/-- The fixed list of common LibreOffice installation paths probed by
`_find_libreoffice`. -/
def common_paths : List String :=
  [ "C:\\Program Files\\LibreOffice\\program\\soffice.exe",
    "C:\\Program Files (x86)\\LibreOffice\\program\\soffice.exe",
    "C:\\Program Files\\LibreOffice 7\\program\\soffice.exe",
    "C:\\Program Files\\LibreOffice 24\\program\\soffice.exe" ]

/-- The `for cmd in ['soffice', 'libreoffice']` loop: return the first command
whose `--version` probe exits with code 0; exceptions and nonzero exits
continue the loop. -/
def findCommand (env : Env) : List String → Option String
  | [] => none
  | cmd :: rest =>
    match env.cmdProbe cmd with
    | ProbeOutcome.exitCode rc => if rc = 0 then some cmd else findCommand env rest
    | ProbeOutcome.notFoundOrTimeout => findCommand env rest

/-- `PPTXtoPDFConverter._find_libreoffice(custom_path)`.  The guard
`custom_path and os.path.exists(custom_path)` makes an empty string falsy. -/
def findLibreoffice (env : Env) (custom_path : Option String) : Option String :=
  let custom_hit : Option String :=
    match custom_path with
    | some c => if c ≠ "" && env.pathExists c then some c else none
    | none => none
  match custom_hit with
  | some c => some c
  | none =>
    match common_paths.find? (fun p => env.pathExists p) with
    | some p => some p
    | none => findCommand env ["soffice", "libreoffice"]

/-! ## Converter state (`PPTXtoPDFConverter.__init__`) -/

/-- The attributes of a constructed `PPTXtoPDFConverter` relevant to
conversion: normalized quality, engine selection, presence of the PowerPoint
sub-converter, and resolved LibreOffice path. -/
structure Converter where
  quality : String
  use_powerpoint : Bool
  powerpoint_converter : Bool
  libreoffice_path : Option String
deriving DecidableEq, Repr

/-- `PPTXtoPDFConverter.__init__(libreoffice_path, quality, use_powerpoint)`.
`env.ppCheckOk` is the module-level `POWERPOINT_AVAILABLE`; `env.ppInitOk`
is whether `PowerPointConverter(...)` construction succeeds (on failure the
code prints a warning and falls back to LibreOffice). -/
def initConverter (env : Env) (libreoffice_path : Option String)
    (quality : String) (use_powerpoint : Option Bool) : Converter :=
  let q := if isPresetKey quality then quality else "standard"
  let up0 :=
    match use_powerpoint with
    | none => env.ppCheckOk
    | some b => b && env.ppCheckOk
  let up := if up0 then env.ppInitOk else false
  if up then
    { quality := q, use_powerpoint := true, powerpoint_converter := true,
      libreoffice_path := none }
  else
    { quality := q, use_powerpoint := false, powerpoint_converter := false,
      libreoffice_path := findLibreoffice env libreoffice_path }

/-! ## Single-file conversion (`PPTXtoPDFConverter.convert_file`) -/

/-- Result of one `convert_file` call: the returned boolean, the log lines
printed, and the conversion subprocess invocations made. -/
structure FileRun where
  result : Bool
  msgs : List Msg
  calls : List BackendCall
deriving DecidableEq, Repr

/-- The backend exited with status zero. -/
def RunOutcome.exitZero : RunOutcome → Bool
  | RunOutcome.completed rc _ => rc = 0
  | _ => false

/-- Output-directory resolution of `convert_file`: the supplied directory, or
the input file's own directory. -/
def resolveOutDir (input_file : String) (output_dir : Option String) : String :=
  match output_dir with
  | some d => d
  | none => parentOf input_file

/-- The LibreOffice command line built by `convert_file`. -/
def loCmd (lo out_dir input_file : String) : List String :=
  [lo, "--headless", "--convert-to", "pdf", "--outdir", out_dir, input_file]

/-- The expected output location `out_dir / f"{input_path.stem}.pdf"`. -/
def expectedPdf (input_file : String) (output_dir : Option String) : String :=
  joinPath (resolveOutDir input_file output_dir) (stemOf input_file ++ ".pdf")

/-- `PPTXtoPDFConverter.convert_file(input_file, output_dir, verbose)`,
translated branch by branch from the source.  The PowerPoint path delegates
to the COM bridge (`env.ppConvert`, given the converter's quality); its log
lines and automation calls are outside the subprocess model.  The LibreOffice
path: missing executable, existence and extension preconditions, output
directory resolution, quality-preset lookup (a lookup failure would be caught
by `except Exception`), the single `subprocess.run` bounded by
`timeout=600`, and output verification on exit code 0. -/
def convertFile (env : Env) (c : Converter) (input_file : String)
    (output_dir : Option String) (verbose : Bool) : FileRun :=
  if c.use_powerpoint && c.powerpoint_converter then
    { result := env.ppConvert c.quality input_file output_dir,
      msgs := [], calls := [] }
  else
    match c.libreoffice_path with
    | none => { result := false, msgs := [Msg.errNoLibreOffice], calls := [] }
    | some lo =>
      if !env.pathExists input_file then
        { result := false, msgs := [Msg.errNotFound input_file], calls := [] }
      else if !(recognizedExts.contains (lowerStr (suffixOf input_file))) then
        { result := false, msgs := [Msg.warnSkip input_file], calls := [] }
      else
        let out_dir := resolveOutDir input_file output_dir
        let msgs0 := if verbose then [Msg.converting (nameOf input_file)] else []
        match presetLookup c.quality with
        | none =>
          { result := false,
            msgs := msgs0 ++ [Msg.errorConverting (nameOf input_file)],
            calls := [] }
        | some preset =>
          let cmd := loCmd lo out_dir input_file
          let msgs1 := msgs0 ++
            (if verbose then [Msg.qualityNote preset.name preset.dpi, Msg.cliNote]
             else [])
          match env.runBackend cmd 600 with
          | RunOutcome.completed rc stderr =>
            if rc = 0 then
              let pdf_path := joinPath out_dir (stemOf input_file ++ ".pdf")
              if env.outExistsAfter pdf_path then
                { result := true,
                  msgs := msgs1 ++
                    (if verbose then [Msg.successMsg (nameOf pdf_path)] else []),
                  calls := [⟨cmd, 600⟩] }
              else
                { result := false,
                  msgs := msgs1 ++ [Msg.failNoPdf (nameOf input_file)],
                  calls := [⟨cmd, 600⟩] }
            else
              { result := false,
                msgs := msgs1 ++ [Msg.failMsg (nameOf input_file)] ++
                  (if verbose && stderr ≠ "" then [Msg.stderrNote stderr] else []),
                calls := [⟨cmd, 600⟩] }
          | RunOutcome.timedOut =>
            { result := false,
              msgs := msgs1 ++ [Msg.timeoutMsg (nameOf input_file)],
              calls := [⟨cmd, 600⟩] }
          | RunOutcome.raised =>
            { result := false,
              msgs := msgs1 ++ [Msg.errorConverting (nameOf input_file)],
              calls := [⟨cmd, 600⟩] }

/-! ## Batch conversion (`PPTXtoPDFConverter.convert_batch`) -/

/-- Summary dictionary returned by `convert_batch`. -/
structure Summary where
  total : Nat
  success : Nat
  failed : Nat
deriving DecidableEq, Repr

/-- File-collection loop of `convert_batch`: a file input with a recognized
extension (case-insensitively) is appended; a directory input is expanded by
four recursive globs, `*.pptx`, `*.ppt`, `*.PPTX`, `*.PPT`, in that order. -/
def expandDir (env : Env) (p : String) : List String :=
  ((env.dirFiles p).filter (fun f => strEndsWith f ".pptx"))
    ++ ((env.dirFiles p).filter (fun f => strEndsWith f ".ppt"))
    ++ ((env.dirFiles p).filter (fun f => strEndsWith f ".PPTX"))
    ++ ((env.dirFiles p).filter (fun f => strEndsWith f ".PPT"))

def collectFiles (env : Env) (input_paths : List String) : List String :=
  input_paths.foldl
    (fun acc path =>
      if env.isFile path && recognizedExts.contains (lowerStr (suffixOf path)) then
        acc ++ [path]
      else if env.isDir path then
        acc ++ expandDir env path
      else acc)
    []

/-- Result of one `convert_batch` call. -/
structure BatchRun where
  summary : Summary
  msgs : List Msg
  calls : List BackendCall
deriving DecidableEq, Repr

/-- State accumulated by the conversion loop of `convert_batch`:
`success_count`, `failed_count`, the log lines and the backend invocations. -/
structure LoopAcc where
  success : Nat
  failed : Nat
  msgs : List Msg
  calls : List BackendCall
deriving DecidableEq, Repr

/-- The `for i, file_path in enumerate(files_to_convert, 1)` loop. -/
def runFilesAux (env : Env) (c : Converter) (output_dir : Option String)
    (verbose : Bool) (n : Nat) : Nat → List String → LoopAcc
  | _, [] => { success := 0, failed := 0, msgs := [], calls := [] }
  | i, f :: rest =>
    let r := convertFile env c f output_dir verbose
    let t := runFilesAux env c output_dir verbose n (i + 1) rest
    { success := if r.result then t.success + 1 else t.success,
      failed := if r.result then t.failed else t.failed + 1,
      msgs := (Msg.progress i n :: r.msgs) ++ t.msgs,
      calls := r.calls ++ t.calls }

/-- `PPTXtoPDFConverter.convert_batch(input_paths, output_dir, verbose)`. -/
def convertBatch (env : Env) (c : Converter) (input_paths : List String)
    (output_dir : Option String) (verbose : Bool) : BatchRun :=
  let files := collectFiles env input_paths
  if files.isEmpty then
    { summary := ⟨0, 0, 0⟩, msgs := [Msg.noFiles], calls := [] }
  else
    let n := files.length
    let t := runFilesAux env c output_dir verbose n 1 files
    { summary := ⟨n, t.success, t.failed⟩,
      msgs := Msg.foundFiles n :: t.msgs ++ [Msg.summaryMsg n t.success t.failed],
      calls := t.calls }

/-! ## CLI entry point (`main`) -/

/-- Parsed command-line arguments of `main`. -/
structure Args where
  inputs : List String
  output : Option String
  libreoffice : Option String
  quiet : Bool
  quality : String
  engine : String
deriving Repr

/-- Result of one CLI run: the `sys.exit` code, the files the batch attempted
(empty when the run halts before processing), the batch summary when a batch
ran, and the conversion subprocess invocations. -/
structure MainRun where
  exitCode : Nat
  processed : List String
  summary : Option Summary
  calls : List BackendCall
deriving Repr

/-- `main()` after argument parsing: engine preference, converter
construction, the fatal no-backend check (`sys.exit(1)` before any
conversion), then the batch and the final exit status
`0 if results['failed'] == 0 else 1`. -/
def mainRun (env : Env) (args : Args) : MainRun :=
  let use_powerpoint : Option Bool :=
    if args.engine = "auto" then none else some (args.engine = "powerpoint")
  let conv := initConverter env args.libreoffice args.quality use_powerpoint
  if conv.use_powerpoint then
    let b := convertBatch env conv args.inputs args.output (!args.quiet)
    { exitCode := if b.summary.failed = 0 then 0 else 1,
      processed := collectFiles env args.inputs,
      summary := some b.summary, calls := b.calls }
  else
    match conv.libreoffice_path with
    | none => { exitCode := 1, processed := [], summary := none, calls := [] }
    | some _ =>
      let b := convertBatch env conv args.inputs args.output (!args.quiet)
      { exitCode := if b.summary.failed = 0 then 0 else 1,
        processed := collectFiles env args.inputs,
        summary := some b.summary, calls := b.calls }

/-! ## Spec-side resolver model (for the refinement claim about
`_find_libreoffice`) -/

/-- `env.cmdProbe cmd` answers the version query with exit code zero. -/
def probeOk (env : Env) (cmd : String) : Bool :=
  match env.cmdProbe cmd with
  | ProbeOutcome.exitCode rc => rc = 0
  | ProbeOutcome.notFoundOrTimeout => false

/-- Spec-side fallback: the first existing known installation location,
else the first of the command names 'soffice', 'libreoffice' whose
version-query invocation exits with code zero, else none. -/
def specResolveFallback (env : Env) : Option String :=
  match common_paths.find? (fun p => env.pathExists p) with
  | some p => some p
  | none =>
    if probeOk env "soffice" then some "soffice"
    else if probeOk env "libreoffice" then some "libreoffice"
    else none

/-- Resolver written from the spec's words: "the explicitly supplied path if
it exists on the filesystem; otherwise the first existing path among a fixed
list of known installation locations; otherwise a command name ('soffice',
then 'libreoffice') that answers a short version-query invocation with exit
code zero; if none of these succeed it returns no backend". -/
def specResolve (env : Env) (custom_path : Option String) : Option String :=
  match custom_path with
  | some c =>
    if env.pathExists c then some c
    else specResolveFallback env
  | none => specResolveFallback env

/-! ## Concrete test environments -/

/-- A LibreOffice-backed converter as `__init__` would build it when
PowerPoint is unavailable and the `soffice` command probe succeeds. -/
def convLO : Converter :=
  { quality := "standard", use_powerpoint := false,
    powerpoint_converter := false, libreoffice_path := some "soffice" }

/-- Batch of three presentations in directory `batch` where the backend
invocation for `batch/f2.pptx` exits with code 1 and the other two succeed
and produce their PDFs. -/
def envBatch3 : Env :=
  { emptyEnv with
    isDir := fun p => p = "batch"
    dirFiles := fun p =>
      if p = "batch" then ["batch/f1.pptx", "batch/f2.pptx", "batch/f3.pptx"]
      else []
    pathExists := fun p =>
      ["batch/f1.pptx", "batch/f2.pptx", "batch/f3.pptx"].contains p
    runBackend := fun cmd _ =>
      if cmd.getLastD "" = "batch/f2.pptx" then RunOutcome.completed 1 ""
      else RunOutcome.completed 0 ""
    outExistsAfter := fun _ => true
    outSizeAfter := fun _ => 4096 }

/-- Backend reports exit code 0 and the PDF path exists but is empty
(zero bytes). -/
def envEmptyPdf : Env :=
  { emptyEnv with
    pathExists := fun p => p = "deck.pptx"
    runBackend := fun _ _ => RunOutcome.completed 0 ""
    outExistsAfter := fun p => p = "deck.pdf"
    outSizeAfter := fun _ => 0 }

/-- Backend whose conversion invocation for `slow.pptx` exceeds the timeout;
the `soffice` command probe succeeds. -/
def envTimeout : Env :=
  { emptyEnv with
    isFile := fun p => p = "slow.pptx" || p = "fast.pptx"
    pathExists := fun p => p = "slow.pptx" || p = "fast.pptx"
    runBackend := fun cmd _ =>
      if cmd.getLastD "" = "slow.pptx" then RunOutcome.timedOut
      else RunOutcome.completed 0 ""
    outExistsAfter := fun _ => true
    outSizeAfter := fun _ => 4096
    cmdProbe := fun cmd =>
      if cmd = "soffice" then ProbeOutcome.exitCode 0
      else ProbeOutcome.notFoundOrTimeout }

/-- Directory `slides` holding files with extensions `.pptx`, `.PPTX`,
`.ppt`, `.PPT` and one `.txt`. -/
def envSlides : Env :=
  { emptyEnv with
    isDir := fun p => p = "slides"
    dirFiles := fun p =>
      if p = "slides" then
        ["slides/a.pptx", "slides/b.PPTX", "slides/c.ppt",
         "slides/d.PPT", "slides/e.txt"]
      else [] }

/-- A single existing plain-text file passed directly as an input path. -/
def envTxt : Env :=
  { emptyEnv with
    isFile := fun p => p = "notes.txt"
    pathExists := fun p => p = "notes.txt" }

/-- Environment with no PowerPoint and no LibreOffice anywhere. -/
def envNoBackend : Env := emptyEnv

/-- Environment where only the `soffice` command probe succeeds. -/
def envSoffice : Env :=
  { emptyEnv with
    cmdProbe := fun cmd =>
      if cmd = "soffice" then ProbeOutcome.exitCode 0
      else ProbeOutcome.notFoundOrTimeout }

/-- Default CLI arguments (`--quality standard --engine auto`). -/
def argsDefault (inputs : List String) : Args :=
  { inputs := inputs, output := none, libreoffice := none,
    quiet := false, quality := "standard", engine := "auto" }

/-! ## Helper lemmas -/

/-- Each loop iteration increments exactly one of the two counters. -/
lemma runFilesAux_success_add_failed (env : Env) (c : Converter)
    (od : Option String) (v : Bool) (n : Nat) :
    ∀ (i : Nat) (files : List String),
      (runFilesAux env c od v n i files).success +
        (runFilesAux env c od v n i files).failed = files.length := by
  intro i files
  induction files generalizing i with
  | nil => simp [runFilesAux]
  | cons f rest ih =>
    by_cases hr : (convertFile env c f od v).result = true <;>
      simp [runFilesAux, hr, ← ih (i + 1)] <;> omega

/-! ## C1 -/

/-- **C1**: for every batch, the summary satisfies `total = success + failed`;
and for the concrete batch of three discovered files where exactly the second
backend invocation exits nonzero, the summary is `{total := 3, success := 2,
failed := 1}`. -/
theorem convert_batch_total_counts :
    (∀ (env : Env) (c : Converter) (inputs : List String)
        (od : Option String) (v : Bool),
        (convertBatch env c inputs od v).summary.total =
          (convertBatch env c inputs od v).summary.success +
            (convertBatch env c inputs od v).summary.failed) ∧
    (convertBatch envBatch3 convLO ["batch"] none true).summary =
      { total := 3, success := 2, failed := 1 } := by
  constructor
  · intro env c inputs od v
    unfold convertBatch
    by_cases h : (collectFiles env inputs).isEmpty <;>
      simp [h, runFilesAux_success_add_failed]
  · rfl

/-! ## C10 -/

/-- **C10**: when no file with a recognized extension is discovered from the
input paths, `convert_batch` invokes no backend and returns the summary
`{total := 0, success := 0, failed := 0}`. -/
theorem empty_discovery_zero_summary (env : Env) (c : Converter)
    (inputs : List String) (od : Option String) (v : Bool)
    (h : collectFiles env inputs = []) :
    (convertBatch env c inputs od v).summary = ⟨0, 0, 0⟩ ∧
    (convertBatch env c inputs od v).calls = [] := by
  unfold convertBatch
  simp [h]

/-- Witness for C10: two inputs, one nonexistent and one with an unrecognized
extension, discover nothing. -/
theorem empty_discovery_zero_summary_witness :
    collectFiles emptyEnv ["missing.pptx", "docs.txt"] = [] ∧
    ((convertBatch emptyEnv convLO ["missing.pptx", "docs.txt"] none true).summary
        = ⟨0, 0, 0⟩ ∧
     (convertBatch emptyEnv convLO ["missing.pptx", "docs.txt"] none true).calls
        = []) :=
  ⟨rfl, empty_discovery_zero_summary emptyEnv convLO _ none true rfl⟩

/-! ## C4 -/

/-- **C4**: a directory input is expanded recursively into exactly the
contained files whose extension is a recognized extension in all-lowercase
or all-uppercase form (mixed case does not match); concretely, a directory
holding `.pptx`, `.PPTX`, `.ppt`, `.PPT` and `.txt` files yields exactly the
four matching files. -/
theorem batch_dir_expansion_exact_case (env : Env) (p f : String)
    (hfile : env.isFile p = false) (hdir : env.isDir p = true) :
    (f ∈ collectFiles env [p] ↔
      f ∈ env.dirFiles p ∧
        (strEndsWith f ".pptx" = true ∨ strEndsWith f ".ppt" = true ∨
         strEndsWith f ".PPTX" = true ∨ strEndsWith f ".PPT" = true)) ∧
    collectFiles envSlides ["slides"] =
      ["slides/a.pptx", "slides/c.ppt", "slides/b.PPTX", "slides/d.PPT"] := by
  constructor
  · simp [collectFiles, hfile, hdir, expandDir, List.mem_filter]
    tauto
  · rfl

/-- Witness for C4 at the concrete five-file directory. -/
theorem batch_dir_expansion_exact_case_witness :
    envSlides.isFile "slides" = false ∧ envSlides.isDir "slides" = true ∧
    (("slides/a.pptx" ∈ collectFiles envSlides ["slides"] ↔
       "slides/a.pptx" ∈ envSlides.dirFiles "slides" ∧
         (strEndsWith "slides/a.pptx" ".pptx" = true ∨
          strEndsWith "slides/a.pptx" ".ppt" = true ∨
          strEndsWith "slides/a.pptx" ".PPTX" = true ∨
          strEndsWith "slides/a.pptx" ".PPT" = true)) ∧
     collectFiles envSlides ["slides"] =
       ["slides/a.pptx", "slides/c.ppt", "slides/b.PPTX", "slides/d.PPT"]) :=
  ⟨rfl, rfl, batch_dir_expansion_exact_case envSlides "slides" "slides/a.pptx" rfl rfl⟩

/-! ## C5 -/

/-- **C5 counterexample**: an existing `.txt` file passed directly as an
input path is excluded by the collection loop of `convert_batch` before
`convert_file` ever runs, so no warning naming it is printed anywhere in the
batch output — the claim's "skipped with a warning" does not hold on this
path. -/
theorem unrecognized_ext_no_warning_counterexample :
    envTxt.isFile "notes.txt" = true ∧
    recognizedExts.contains (lowerStr (suffixOf "notes.txt")) = false ∧
    Msg.warnSkip "notes.txt" ∉
      (convertBatch envTxt convLO ["notes.txt"] none true).msgs := by
  decide

/-- **C5 (amended)**: for an existing file with an unrecognized extension
passed as an input path, no backend is invoked, the file is excluded from
both the success and the failed count, and it is skipped silently by the
batch (the warning exists only in `convert_file`, which the batch never
reaches for such a file). -/
theorem unrecognized_ext_excluded_silently (env : Env) (c : Converter)
    (f : String) (od : Option String) (v : Bool)
    (hfile : env.isFile f = true)
    (hdir : env.isDir f = false)
    (hext : recognizedExts.contains (lowerStr (suffixOf f)) = false) :
    collectFiles env [f] = [] ∧
    (convertBatch env c [f] od v).summary = ⟨0, 0, 0⟩ ∧
    (convertBatch env c [f] od v).calls = [] ∧
    (convertBatch env c [f] od v).msgs = [Msg.noFiles] := by
  have hext' : lowerStr (suffixOf f) ∉ recognizedExts := by simpa using hext
  have hcol : collectFiles env [f] = [] := by
    simp [collectFiles, hfile, hext', hdir]
  refine ⟨hcol, ?_, ?_, ?_⟩ <;> simp [convertBatch, hcol]

/-- Witness for C5 (amended) at the concrete `.txt` input. -/
theorem unrecognized_ext_excluded_silently_witness :
    envTxt.isFile "notes.txt" = true ∧
    (collectFiles envTxt ["notes.txt"] = [] ∧
     (convertBatch envTxt convLO ["notes.txt"] none true).summary = ⟨0, 0, 0⟩ ∧
     (convertBatch envTxt convLO ["notes.txt"] none true).calls = [] ∧
     (convertBatch envTxt convLO ["notes.txt"] none true).msgs = [Msg.noFiles]) :=
  ⟨rfl, unrecognized_ext_excluded_silently envTxt convLO "notes.txt" none true
    rfl rfl rfl⟩

/-! ## C2 -/

/-- **C2 (amended)**: for an existing input file with a recognized extension
on the LibreOffice path, `convert_file` reports success if and only if the
backend exits with status zero and the expected output file
`<output_dir>/<input_stem>.pdf` exists; in particular a zero exit with the
expected file absent is reported as failure.  (The source checks only
`pdf_path.exists()` — it does not require the file to be non-empty.) -/
theorem convert_file_success_iff_output_created (env : Env) (c : Converter)
    (f : String) (od : Option String) (v : Bool) (lo : String) (p : QualityPreset)
    (hpp : c.use_powerpoint = false)
    (hlo : c.libreoffice_path = some lo)
    (hq : presetLookup c.quality = some p)
    (hex : env.pathExists f = true)
    (hsuf : recognizedExts.contains (lowerStr (suffixOf f)) = true) :
    ((convertFile env c f od v).result = true ↔
      ((env.runBackend (loCmd lo (resolveOutDir f od) f) 600).exitZero = true ∧
       env.outExistsAfter (expectedPdf f od) = true)) := by
  unfold convertFile
  simp only [hpp, Bool.false_and, Bool.not_eq_true, if_false, hlo, hex, hsuf, hq,
    Bool.not_true, expectedPdf]
  cases hrb : env.runBackend (loCmd lo (resolveOutDir f od) f) 600 with
  | completed rc stderr =>
    by_cases hrc : rc = 0
    · subst hrc
      by_cases hout : env.outExistsAfter
          (joinPath (resolveOutDir f od) (stemOf f ++ ".pdf")) <;>
        simp [hrb, hout, RunOutcome.exitZero]
    · simp [hrb, hrc, RunOutcome.exitZero]
  | timedOut => simp [hrb, RunOutcome.exitZero]
  | raised => simp [hrb, RunOutcome.exitZero]

/-- Witness for C2 (amended): backend exits zero and the output file exists,
so the call reports success. -/
theorem convert_file_success_iff_output_created_witness :
    (convertFile envEmptyPdf convLO "deck.pptx" none true).result = true ↔
      ((envEmptyPdf.runBackend
          (loCmd "soffice" (resolveOutDir "deck.pptx" none) "deck.pptx")
          600).exitZero = true ∧
       envEmptyPdf.outExistsAfter (expectedPdf "deck.pptx" none) = true) :=
  convert_file_success_iff_output_created envEmptyPdf convLO "deck.pptx" none
    true "soffice" _ rfl rfl rfl rfl rfl

/-- **C2 counterexample**: with a backend that exits zero and leaves an
existing but zero-byte `deck.pdf`, `convert_file` reports success, so success
is *not* equivalent to "exit zero and output exists and is non-empty" as the
claim states. -/
theorem convert_file_empty_output_counterexample :
    ¬ ((convertFile envEmptyPdf convLO "deck.pptx" none true).result = true ↔
       ((envEmptyPdf.runBackend
            (loCmd "soffice" (resolveOutDir "deck.pptx" none) "deck.pptx")
            600).exitZero = true ∧
        envEmptyPdf.outExistsAfter (expectedPdf "deck.pptx" none) = true ∧
        0 < envEmptyPdf.outSizeAfter (expectedPdf "deck.pptx" none))) := by
  decide

/-- Shape of `convert_file` on the non-PowerPoint path: either it returns
before the backend is invoked (no subprocess call), or it makes exactly one
call, the LibreOffice command bounded by 600 seconds, and reports success
only when that call exited zero. -/
lemma convertFile_calls_shape (env : Env) (c : Converter) (f : String)
    (od : Option String) (v : Bool) (hpp : c.use_powerpoint = false) :
    (convertFile env c f od v).calls = [] ∨
    ∃ lo, c.libreoffice_path = some lo ∧
      (convertFile env c f od v).calls =
        [⟨loCmd lo (resolveOutDir f od) f, 600⟩] ∧
      ((convertFile env c f od v).result = true →
        (env.runBackend (loCmd lo (resolveOutDir f od) f) 600).exitZero = true) := by
  unfold convertFile
  simp only [hpp, Bool.false_and, if_false]
  cases hlo : c.libreoffice_path with
  | none => exact Or.inl rfl
  | some lo =>
    cases hex : env.pathExists f with
    | false => simp
    | true =>
      cases hsuf : recognizedExts.contains (lowerStr (suffixOf f)) with
      | false => simp
      | true =>
        cases hq : presetLookup c.quality with
        | none => simp
        | some preset =>
          refine Or.inr ⟨lo, rfl, ?_⟩
          cases hrb : env.runBackend (loCmd lo (resolveOutDir f od) f) 600 with
          | completed rc stderr =>
            by_cases hrc : rc = 0
            · subst hrc
              by_cases hout : env.outExistsAfter
                  (joinPath (resolveOutDir f od) (stemOf f ++ ".pdf")) <;>
                simp [hrb, hout, RunOutcome.exitZero]
            · simp [hrb, hrc]
          | timedOut => simp [hrb]
          | raised => simp [hrb]

/-! ## C3 -/

/-- **C3**: on the LibreOffice path every backend invocation made by
`convert_file` is bounded by the fixed 600-second timeout; at most one
invocation is made per file (no retry); an invocation that times out makes
the file's result a failure, never a success; and the batch loop goes on to
process the remaining files regardless of this file's outcome. -/
theorem convert_file_timeout_recorded_failure (env : Env) (c : Converter)
    (f : String) (od : Option String) (v : Bool)
    (rest : List String) (i n : Nat)
    (hpp : c.use_powerpoint = false) :
    (∀ b ∈ (convertFile env c f od v).calls, b.timeoutSecs = 600) ∧
    (convertFile env c f od v).calls.length ≤ 1 ∧
    (∀ b ∈ (convertFile env c f od v).calls,
        env.runBackend b.cmd b.timeoutSecs = RunOutcome.timedOut →
        (convertFile env c f od v).result = false) ∧
    (runFilesAux env c od v n i (f :: rest)).calls =
      (convertFile env c f od v).calls ++
        (runFilesAux env c od v n (i + 1) rest).calls := by
  rcases convertFile_calls_shape env c f od v hpp with h | ⟨lo, hlo, hcalls, himp⟩
  · refine ⟨?_, ?_, ?_, ?_⟩ <;> simp [h, runFilesAux]
  · refine ⟨?_, ?_, ?_, ?_⟩
    · intro b hb
      rw [hcalls] at hb
      simp at hb
      rw [hb]
    · simp [hcalls]
    · intro b hb hto
      rw [hcalls] at hb
      simp at hb
      subst hb
      simp only at hto
      cases hres : (convertFile env c f od v).result
      · rfl
      · have := himp hres
        rw [hto] at this
        simp [RunOutcome.exitZero] at this
    · simp [runFilesAux]

/-- Witness for C3: a backend invocation that exceeds the timeout, followed
by another file in the batch. -/
theorem convert_file_timeout_recorded_failure_witness :
    convLO.use_powerpoint = false ∧
    ((∀ b ∈ (convertFile envTimeout convLO "slow.pptx" none true).calls,
        b.timeoutSecs = 600) ∧
     (convertFile envTimeout convLO "slow.pptx" none true).calls.length ≤ 1 ∧
     (∀ b ∈ (convertFile envTimeout convLO "slow.pptx" none true).calls,
         envTimeout.runBackend b.cmd b.timeoutSecs = RunOutcome.timedOut →
         (convertFile envTimeout convLO "slow.pptx" none true).result = false) ∧
     (runFilesAux envTimeout convLO none true 2 1
         ("slow.pptx" :: ["fast.pptx"])).calls =
       (convertFile envTimeout convLO "slow.pptx" none true).calls ++
         (runFilesAux envTimeout convLO none true 2 (1 + 1) ["fast.pptx"]).calls) :=
  ⟨rfl, convert_file_timeout_recorded_failure envTimeout convLO "slow.pptx"
    none true ["fast.pptx"] 1 2 rfl⟩

/-- When PowerPoint is unavailable (the installation check failed) or its
initialization fails, `__init__` settles on the LibreOffice engine and
resolves the LibreOffice path. -/
lemma initConverter_no_powerpoint (env : Env) (l : Option String) (q : String)
    (u : Option Bool) (h : env.ppCheckOk = false ∨ env.ppInitOk = false) :
    (initConverter env l q u).use_powerpoint = false ∧
    (initConverter env l q u).libreoffice_path = findLibreoffice env l := by
  unfold initConverter
  rcases h with h | h <;> cases u <;> simp [h]

/-! ## C6 -/

/-- **C6**: when no conversion backend is available at startup (PowerPoint
not usable — the installation check or the initialization fails — and the
LibreOffice resolver finds nothing), the CLI run exits with code 1 before
any input file is processed: no file is attempted, no summary is produced,
and no backend invocation is made. -/
theorem no_backend_exits_before_processing (env : Env) (args : Args)
    (hpp : env.ppCheckOk = false ∨ env.ppInitOk = false)
    (hlo : findLibreoffice env args.libreoffice = none) :
    (mainRun env args).exitCode = 1 ∧
    (mainRun env args).exitCode ≠ 0 ∧
    (mainRun env args).processed = [] ∧
    (mainRun env args).summary = none ∧
    (mainRun env args).calls = [] := by
  obtain ⟨h1, h2⟩ := initConverter_no_powerpoint env args.libreoffice args.quality
    (if args.engine = "auto" then none else some (args.engine = "powerpoint")) hpp
  unfold mainRun
  simp [h1, h2, hlo]

/-- Witness for C6: no PowerPoint, no LibreOffice anywhere. -/
theorem no_backend_exits_before_processing_witness :
    (envNoBackend.ppCheckOk = false ∨ envNoBackend.ppInitOk = false) ∧
    ((mainRun envNoBackend (argsDefault ["deck.pptx"])).exitCode = 1 ∧
     (mainRun envNoBackend (argsDefault ["deck.pptx"])).exitCode ≠ 0 ∧
     (mainRun envNoBackend (argsDefault ["deck.pptx"])).processed = [] ∧
     (mainRun envNoBackend (argsDefault ["deck.pptx"])).summary = none ∧
     (mainRun envNoBackend (argsDefault ["deck.pptx"])).calls = []) :=
  ⟨Or.inl rfl,
   no_backend_exits_before_processing envNoBackend (argsDefault ["deck.pptx"])
     (Or.inl rfl) rfl⟩

/-! ## C7 -/

/-- **C7**: whenever the CLI run reaches the batch (a summary is produced),
the process exit status is 0 if and only if the summary's failed count is
zero; any failure makes the status nonzero. -/
theorem exit_code_zero_iff_no_failures (env : Env) (args : Args) (s : Summary)
    (h : (mainRun env args).summary = some s) :
    ((mainRun env args).exitCode = 0 ↔ s.failed = 0) := by
  unfold mainRun at h ⊢
  by_cases hup : (initConverter env args.libreoffice args.quality
      (if args.engine = "auto" then none
       else some (args.engine = "powerpoint"))).use_powerpoint
  · simp [hup] at h ⊢
    subst h
    by_cases hf : (convertBatch env
        (initConverter env args.libreoffice args.quality
          (if args.engine = "auto" then none
           else some (args.engine = "powerpoint")))
        args.inputs args.output (!args.quiet)).summary.failed = 0 <;>
      simp [hf]
  · rw [Bool.not_eq_true] at hup
    simp only [hup, Bool.false_eq_true, if_false] at h ⊢
    cases hlp : (initConverter env args.libreoffice args.quality
        (if args.engine = "auto" then none
         else some (args.engine = "powerpoint"))).libreoffice_path with
    | none => simp [hlp] at h
    | some lo =>
      simp [hlp] at h ⊢
      subst h
      by_cases hf : (convertBatch env
          (initConverter env args.libreoffice args.quality
            (if args.engine = "auto" then none
             else some (args.engine = "powerpoint")))
          args.inputs args.output (!args.quiet)).summary.failed = 0 <;>
        simp [hf]

/-- Witness for C7: the `soffice` probe succeeds, the single input does not
exist, the batch attempts nothing and the process exits 0. -/
theorem exit_code_zero_iff_no_failures_witness :
    ((mainRun envSoffice (argsDefault ["missing.pptx"])).summary =
      some ⟨0, 0, 0⟩) ∧
    ((mainRun envSoffice (argsDefault ["missing.pptx"])).exitCode = 0 ↔
      (⟨0, 0, 0⟩ : Summary).failed = 0) :=
  ⟨rfl, exit_code_zero_iff_no_failures envSoffice (argsDefault ["missing.pptx"])
    ⟨0, 0, 0⟩ rfl⟩

/-- The command-probing loop agrees with the spec's if-chain. -/
lemma findCommand_eq_spec (env : Env) :
    findCommand env ["soffice", "libreoffice"] =
      (if probeOk env "soffice" then some "soffice"
       else if probeOk env "libreoffice" then some "libreoffice"
       else none) := by
  unfold findCommand probeOk
  cases h1 : env.cmdProbe "soffice" with
  | exitCode rc1 =>
    by_cases hrc1 : rc1 = 0
    · simp [hrc1]
    · cases h2 : env.cmdProbe "libreoffice" with
      | exitCode rc2 =>
        by_cases hrc2 : rc2 = 0 <;> simp [hrc1, hrc2, h2, findCommand]
      | notFoundOrTimeout => simp [hrc1, h2, findCommand]
  | notFoundOrTimeout =>
    cases h2 : env.cmdProbe "libreoffice" with
    | exitCode rc2 =>
      by_cases hrc2 : rc2 = 0 <;> simp [hrc2, h2, findCommand]
    | notFoundOrTimeout => simp [h2, findCommand]

/-! ## C8 -/

/-- **C8**: `_find_libreoffice` implements exactly the spec's search order —
explicit path if it exists, else the first existing known installation
location, else `soffice` then `libreoffice` probed by a version query with
exit code zero, else no backend.  (The hypothesis says the empty path does
not exist on the filesystem, which is how `os.path.exists` behaves; it
reconciles Python's falsy-string guard with the spec's wording.) -/
theorem find_libreoffice_matches_spec_order (env : Env) (custom : Option String)
    (hempty : env.pathExists "" = false) :
    findLibreoffice env custom = specResolve env custom := by
  have hfb : (match common_paths.find? (fun p => env.pathExists p) with
      | some p => some p
      | none => findCommand env ["soffice", "libreoffice"]) =
      specResolveFallback env := by
    unfold specResolveFallback
    cases hc : common_paths.find? (fun p => env.pathExists p) <;>
      simp [findCommand_eq_spec env]
  cases custom with
  | none =>
    unfold findLibreoffice specResolve
    simpa using hfb
  | some c =>
    by_cases hc : c = ""
    · subst hc
      unfold findLibreoffice specResolve
      simp only [hempty]
      simpa using hfb
    · unfold findLibreoffice specResolve
      by_cases hex : env.pathExists c
      · simp [hc, hex]
      · simpa [hc, hex] using hfb

/-- Witness for C8: an explicit path that does not exist, falling through to
the successful `soffice` probe. -/
theorem find_libreoffice_matches_spec_order_witness :
    envSoffice.pathExists "" = false ∧
    findLibreoffice envSoffice (some "/opt/lo") =
      specResolve envSoffice (some "/opt/lo") :=
  ⟨rfl, find_libreoffice_matches_spec_order envSoffice (some "/opt/lo") rfl⟩

/-- `__init__` decides the engine and the LibreOffice path without looking at
the quality argument. -/
lemma initConverter_quality_only (env : Env) (l : Option String) (q q' : String)
    (u : Option Bool) :
    (initConverter env l q u).use_powerpoint =
      (initConverter env l q' u).use_powerpoint ∧
    (initConverter env l q u).powerpoint_converter =
      (initConverter env l q' u).powerpoint_converter ∧
    (initConverter env l q u).libreoffice_path =
      (initConverter env l q' u).libreoffice_path := by
  unfold initConverter
  cases u with
  | none =>
    by_cases h1 : env.ppCheckOk <;> by_cases h2 : env.ppInitOk <;> simp [h1, h2]
  | some b =>
    cases b <;> by_cases h1 : env.ppCheckOk <;> by_cases h2 : env.ppInitOk <;>
      simp [h1, h2]

/-- The quality attribute set by `__init__` always has an entry in
`QUALITY_PRESETS` (unknown names are normalized to `"standard"`). -/
lemma presetLookup_initConverter (env : Env) (l : Option String) (q : String)
    (u : Option Bool) :
    ∃ p, presetLookup (initConverter env l q u).quality = some p := by
  have hq : (initConverter env l q u).quality =
      if isPresetKey q then q else "standard" := by
    unfold initConverter
    cases u with
    | none =>
      by_cases h1 : env.ppCheckOk <;> by_cases h2 : env.ppInitOk <;> simp [h1, h2]
    | some b =>
      cases b <;> by_cases h1 : env.ppCheckOk <;> by_cases h2 : env.ppInitOk <;>
        simp [h1, h2]
  rw [hq]
  by_cases h : isPresetKey q
  · rw [if_pos h]
    have hmem : q = "screen" ∨ q = "standard" ∨ q = "high" ∨ q = "maximum" := by
      simp [isPresetKey, QUALITY_PRESETS] at h
      tauto
    rcases hmem with h' | h' | h' | h' <;> subst h' <;> exact ⟨_, rfl⟩
  · rw [if_neg h]
    exact ⟨_, rfl⟩

/-! ## C9 -/

/-- **C9**: the quality preset has no effect on the LibreOffice conversion
path — two converters built with the same arguments except for the quality
preset make identical backend invocations (same executable, flags, filter
string, output directory and input path) and return the same conversion
result on every input. -/
theorem quality_preset_noop_for_libreoffice (env : Env) (custom : Option String)
    (u : Option Bool) (q1 q2 : String) (f : String) (od : Option String)
    (v : Bool)
    (hpp : (initConverter env custom q1 u).use_powerpoint = false) :
    (convertFile env (initConverter env custom q1 u) f od v).calls =
      (convertFile env (initConverter env custom q2 u) f od v).calls ∧
    (convertFile env (initConverter env custom q1 u) f od v).result =
      (convertFile env (initConverter env custom q2 u) f od v).result := by
  obtain ⟨hu, hpc, hlp⟩ := initConverter_quality_only env custom q1 q2 u
  obtain ⟨p1, hp1⟩ := presetLookup_initConverter env custom q1 u
  obtain ⟨p2, hp2⟩ := presetLookup_initConverter env custom q2 u
  have hpp2 : (initConverter env custom q2 u).use_powerpoint = false :=
    hu ▸ hpp
  unfold convertFile
  simp only [hpp, hpp2, Bool.false_and, Bool.false_eq_true, if_false]
  rw [← hlp]
  cases hlo : (initConverter env custom q1 u).libreoffice_path with
  | none => simp
  | some lo =>
    cases hex : env.pathExists f with
    | false => simp
    | true =>
      cases hsuf : recognizedExts.contains (lowerStr (suffixOf f)) with
      | false => simp
      | true =>
        cases hrb : env.runBackend (loCmd lo (resolveOutDir f od) f) 600 with
        | completed rc stderr =>
          by_cases hrc : rc = 0
          · subst hrc
            by_cases hout : env.outExistsAfter
                (joinPath (resolveOutDir f od) (stemOf f ++ ".pdf")) <;>
              simp [hp1, hp2, hrb, hout]
          · simp [hp1, hp2, hrb, hrc]
        | timedOut => simp [hp1, hp2, hrb]
        | raised => simp [hp1, hp2, hrb]

/-- Witness for C9: `screen` versus `maximum` quality on a real conversion. -/
theorem quality_preset_noop_for_libreoffice_witness :
    (initConverter envTimeout (some "soffice") "screen" (some false)).use_powerpoint
        = false ∧
    ((convertFile envTimeout
        (initConverter envTimeout (some "soffice") "screen" (some false))
        "fast.pptx" none true).calls =
      (convertFile envTimeout
        (initConverter envTimeout (some "soffice") "maximum" (some false))
        "fast.pptx" none true).calls ∧
     (convertFile envTimeout
        (initConverter envTimeout (some "soffice") "screen" (some false))
        "fast.pptx" none true).result =
      (convertFile envTimeout
        (initConverter envTimeout (some "soffice") "maximum" (some false))
        "fast.pptx" none true).result) :=
  ⟨rfl, quality_preset_noop_for_libreoffice envTimeout (some "soffice")
    (some false) "screen" "maximum" "fast.pptx" none true rfl⟩
